import Mathlib

/-!
Verification of the packaging manifest of the tadtool repository.

The repository consists of a single file, `setup.py`, whose whole effect is
one call to `setuptools.setup(...)` with literal keyword arguments, apart
from the `packages` argument, which is computed by
`find_packages(exclude=["test"])` and therefore depends on the package
directories discovered on disk.  We embed the call shallowly: a record of
the keyword arguments, a function from the discovered-package environment
to the list of `setup` calls the module performs, and a literal-pattern
model of `find_packages`.
-/

/-- The keyword arguments of one `setuptools.setup(...)` call, as passed in
`setup.py`. -/
structure SetupArgs where
  name : String
  version : String
  description : String
  packages : List String
  install_requires : List String
  author : String
  author_email : String
  url : String
  download_url : String
  keywords : List String
  classifiers : List String
  scripts : List String
deriving Repr, DecidableEq

/-- Shallow embedding of `setuptools.find_packages` for exclude patterns
that contain no wildcard (the call site passes only the literal pattern
`"test"`): from the packages discovered on disk, drop every package whose
dotted name equals one of the exclude patterns. -/
def find_packages (found : List String) (exclude : List String) : List String :=
  found.filter (fun p => !(exclude.contains p))

/-- The arguments `setup.py` passes to `setup`, given the list `found` of
package directories that `find_packages` discovers on disk.  Every field
except `packages` is a literal from the source. -/
def tadtoolArgs (found : List String) : SetupArgs :=
  { name := "tadtool"
  , version := "0.61"
  , description := "Assistant to find cutoffs in TAD calling algorithms."
  , packages := find_packages found ["test"]
  , install_requires := ["numpy", "matplotlib", "progressbar2"]
  , author := "Vaquerizas lab"
  , author_email := "kai.kruse@mpi-muenster.mpg.de"
  , url := "https://github.com/vaquerizaslab/tadtool"
  , download_url := "https://github.com/vaquerizaslab/tadtool/tarball/0.61"
  , keywords := ["bioinformatics", "hi-c", "genomics", "tad"]
  , classifiers := []
  , scripts := ["bin/tadtool"] }

/-- Evaluating the module `setup.py`: the list of `setup` calls it performs,
in order, as a function of the discovered-package environment.  The module
body is one import line and one `setup(...)` call, so the list is a
singleton. -/
def evalSetupPy (found : List String) : List SetupArgs :=
  [tadtoolArgs found]

/-- The metadata arguments of a `setup` call other than `packages`:
name, version, description, dependency list, author, email, the two URLs,
keywords and scripts. -/
def metadataOf (a : SetupArgs) :
    String × String × String × List String × String × String × String ×
      String × List String × List String :=
  (a.name, a.version, a.description, a.install_requires, a.author,
    a.author_email, a.url, a.download_url, a.keywords, a.scripts)

/-- Split a list of characters at each slash, accumulating the current
component in reverse. -/
def splitSlashAux : List Char → List Char → List (List Char)
  | [], acc => [acc.reverse]
  | c :: cs, acc =>
    if c = '/' then acc.reverse :: splitSlashAux cs []
    else splitSlashAux cs (c :: acc)

/-- The slash-separated components of a path or URL. -/
def pathComponents (s : String) : List String :=
  (splitSlashAux s.data []).map (fun cs => String.mk cs)

/-- The final slash-separated component of a path or URL; for a script
path this is the command name under which setuptools installs the script. -/
def lastPathComponent (s : String) : String :=
  (pathComponents s).getLastD ""

/-- Modelled from the spec: the installation step is not part of this
repository; the spec states that after installation "the declared
dependencies should resolve".  Installing a distribution installs it
together with one distribution per name in its `install_requires`. -/
def installedAfter (a : SetupArgs) : List String :=
  a.name :: a.install_requires

/-- Modelled from the spec: a dependency name resolves in an environment
when an installed distribution carries that name. -/
def resolvesIn (env : List String) (d : String) : Bool :=
  env.contains d

/-- C1: the `setup()` invocation declares the package name as exactly
`tadtool` and the version as exactly the string `0.61`. -/
theorem setup_name_and_version (found : List String) :
    (tadtoolArgs found).name = "tadtool" ∧ (tadtoolArgs found).version = "0.61" :=
  ⟨rfl, rfl⟩

/-- C2: the `setup()` invocation declares exactly the three runtime
dependencies `numpy`, `matplotlib`, `progressbar2`, in that order, and no
other. -/
theorem setup_install_requires (found : List String) :
    (tadtoolArgs found).install_requires = ["numpy", "matplotlib", "progressbar2"] :=
  rfl

/-- C3: the `setup()` invocation declares exactly one command-line script,
with path `bin/tadtool`, and the command name it installs under (the final
path component) is `tadtool`. -/
theorem setup_scripts (found : List String) :
    (tadtoolArgs found).scripts = ["bin/tadtool"] ∧
      (tadtoolArgs found).scripts.map lastPathComponent = ["tadtool"] :=
  ⟨rfl, rfl⟩

/-- C4: the `setup()` invocation supplies a non-empty value for each of the
five distribution-metadata fields: author, contact email, source URL,
download URL, and keyword tags. -/
theorem setup_metadata_nonempty (found : List String) :
    ((tadtoolArgs found).author.isEmpty = false) ∧
      ((tadtoolArgs found).author_email.isEmpty = false) ∧
      ((tadtoolArgs found).url.isEmpty = false) ∧
      ((tadtoolArgs found).download_url.isEmpty = false) ∧
      ((tadtoolArgs found).keywords.isEmpty = false) :=
  ⟨rfl, rfl, rfl, rfl, rfl⟩

/-- C5: the keyword tags declared by the `setup()` invocation are exactly
the four strings `bioinformatics`, `hi-c`, `genomics`, `tad`. -/
theorem setup_keywords (found : List String) :
    (tadtoolArgs found).keywords = ["bioinformatics", "hi-c", "genomics", "tad"] :=
  rfl

/-- C6: evaluating `setup.py` performs exactly one `setup()` call, and
every metadata argument other than `packages` is a literal independent of
the environment, so any two evaluations produce identical metadata. -/
theorem setup_deterministic_metadata (e1 e2 : List String) :
    (evalSetupPy e1).length = 1 ∧
      (evalSetupPy e1).map metadataOf = (evalSetupPy e2).map metadataOf :=
  ⟨rfl, rfl⟩

/-- C7: in the spec-modelled post-installation environment, each of the
three declared dependencies resolves to an installed distribution. -/
theorem setup_dependencies_resolve (found : List String) :
    (resolvesIn (installedAfter (tadtoolArgs found)) "numpy" = true) ∧
      (resolvesIn (installedAfter (tadtoolArgs found)) "matplotlib" = true) ∧
      (resolvesIn (installedAfter (tadtoolArgs found)) "progressbar2" = true) ∧
      ((tadtoolArgs found).install_requires.all
          (resolvesIn (installedAfter (tadtoolArgs found))) = true) :=
  ⟨rfl, rfl, rfl, rfl⟩

/-- C8 counterexample: the final path component of the download URL is not
the string `tarball/0.61` (that string spans two components). -/
theorem download_url_component_ne :
    (lastPathComponent (tadtoolArgs []).download_url == "tarball/0.61") = false := by
  decide

/-- C8 (amended): the final path component of the download URL is exactly
the string given as the version field, `0.61`. -/
theorem download_url_matches_version (found : List String) :
    lastPathComponent (tadtoolArgs found).download_url = (tadtoolArgs found).version := by
  rfl

/-- C9: `find_packages` is called with the exclude pattern `test`, so
whatever packages are discovered, the returned set never contains a package
named `test`. -/
theorem find_packages_never_test (found : List String) :
    ((find_packages found ["test"]).contains "test") = false := by
  induction found with
  | nil => rfl
  | cons p ps ih =>
    by_cases hp : p = "test"
    · subst hp
      simp only [find_packages, List.filter] at ih ⊢
      simp [ih]
    · have hb : (p == "test") = false := by
        simp [hp]
      simp only [find_packages, List.filter] at ih ⊢
      simp [List.contains, List.elem, hb, hp, ih, Ne.symm hp]

/-- C10: the `classifiers` argument passed to `setup()` is the empty list. -/
theorem setup_classifiers_empty (found : List String) :
    (tadtoolArgs found).classifiers = [] :=
  rfl
